import Mathlib

/-!
Verification of the DQN network-construction module (`src/network.py`).

The Python module builds a TensorFlow computation graph.  Graph construction
is pure: each builder returns handles (tensors, variables, operations) that
describe the graph.  We embed it shallowly:

* variables created by `tf.get_variable` become `Variable` descriptors
  (fully scoped name, shape, initializer, collections);
* tensors produced by layer wiring become terms of the expression type `T`
  (the graph is literally an abstract syntax tree of tensor operations);
* `_init_loss` additionally gets a denotational embedding `init_loss` on
  exact rationals, mirroring the arithmetic of
  `reduce_sum(multiply(q, actions))`, `squared_difference`, `reduce_mean`;
* fallible construction steps (`raise RuntimeError`, attribute access on the
  opaque config object, tuple unpacking) return `Except String _`;
* ambient `tf.variable_scope` nesting is threaded as an explicit scope-prefix
  string, and the ambient collections argument is threaded explicitly
  (`none` = TensorFlow's default collections, `some l` = explicit list).

Training-time state is modelled by `VarState` (a map from variable names to
exact rational values); `minimize(loss, var_list=params)` is modelled as an
update that writes exactly the variables in `var_list` (plus the global
step), and `tf.assign(target_p, p)` as a copy between named slots.
-/

/-- The configuration record consumed by the module (spec §6).  The spec's
data model lists `momentum` and `rmsprop_decay` as present only "if
applicable", so they are `Option`s; reading an absent field corresponds to
an `AttributeError` on the opaque Python config object. -/
structure Config where
  network : String
  optimizer : String
  lr : Rat
  momentum : Option Rat
  rmsprop_decay : Option Rat
  reg_param : Rat
  sync : Bool
  task_id : Nat
  disable_target_replication : Bool
deriving Repr, DecidableEq

/-- Variable initializers used by the module:
`tf.truncated_normal_initializer(stddev=0.01)` and
`tf.constant_initializer(value=0.0)`. -/
inductive Initializer where
  | truncatedNormal (stddev : Rat)
  | constant (value : Rat)
deriving Repr, DecidableEq

/-- A variable created by `tf.get_variable`: fully scoped name, shape,
initializer, and the `collections` argument (`none` is TensorFlow's
default, i.e. global + trainable; `some l` is an explicit list, possibly
empty). -/
structure Variable where
  name : String
  shape : List Nat
  initializer : Initializer
  collections : Option (List String)
deriving Repr, DecidableEq

/-- `tf.get_variable(name, shape, initializer, collections)` under an
explicit scope prefix (the ambient `tf.variable_scope` nesting). -/
def get_variable (scope : String) (name : String) (shape : List Nat)
    (init : Initializer) (collections : Option (List String)) : Variable :=
  ⟨scope ++ name, shape, init, collections⟩

/-- Tensor expressions: the abstract syntax tree built by graph
construction.  Each constructor corresponds to one TensorFlow op used in
`network.py`. -/
inductive T where
  | placeholder (name : String)
  | var (v : Variable)
  | lit (x : Rat)
  | matmul (a b : T)
  | add (a b : T)
  | tanh (a : T)
  | relu (a : T)
  | conv2d (input filt : T) (strides : List Nat) (padding : String)
  | maxpool (a : T) (ksize strides : List Nat) (padding : String)
  | reshape (a : T) (shape : List Int)
  | l2_loss (a : T)
deriving Repr, DecidableEq

/-- The placeholder names occurring in a tensor expression, in order of
appearance (used to show which input placeholders feed an output). -/
def T.placeholders : T → List String
  | .placeholder n => [n]
  | .var _ => []
  | .lit _ => []
  | .matmul a b => a.placeholders ++ b.placeholders
  | .add a b => a.placeholders ++ b.placeholders
  | .tanh a => a.placeholders
  | .relu a => a.placeholders
  | .conv2d a b _ _ => a.placeholders ++ b.placeholders
  | .maxpool a _ _ _ => a.placeholders
  | .reshape a _ => a.placeholders
  | .l2_loss a => a.placeholders

/-- Python's `sum(tf.nn.l2_loss(w) for w in ws)`: a left fold of graph
`add` nodes starting from the literal `0`. -/
def sum_l2 (ws : List Variable) : T :=
  ws.foldl (fun acc w => T.add acc (T.l2_loss (T.var w))) (T.lit 0)

/-- Denotational embedding of `Network._init_loss` (network.py:141-157) on
exact rationals.  `q` is the predicted output (batch × actions), `actions`
the one-hot mask, `expected_q` the expected-value vector:
`q_masked = reduce_sum(multiply(q, actions), axis 1)`,
`loss = reduce_mean(squared_difference(q_masked, expected_q))`, and when a
regularization penalty is supplied, `loss += reg_param * reg_loss`. -/
def init_loss (reg_param : Rat) (q : List (List Rat)) (expected_q : List Rat)
    (actions : List (List Rat)) (reg_loss : Option Rat) : Rat :=
  let q_masked := (q.zip actions).map
    (fun row => ((row.1.zip row.2).map (fun xy => xy.1 * xy.2)).sum)
  let sq := (q_masked.zip expected_q).map (fun p => (p.1 - p.2) ^ 2)
  let base := sq.sum / (sq.length : Rat)
  match reg_loss with
  | some r => base + reg_param * r
  | none => base

/-- The optimizer object constructed by `_init_optimizer`: one constructor
per entry of the dispatch dictionary (network.py:169-177), each holding the
configured learning rate, plus the `SyncReplicasOptimizer` wrapper. -/
inductive OptimizerSpec where
  | adadelta (lr : Rat)
  | adagrad (lr : Rat)
  | adam (lr : Rat)
  | ftrl (lr : Rat)
  | sgd (lr : Rat)
  | momentum (lr m : Rat)
  | rmsprop (lr decay : Rat)
  | syncReplicas (inner : OptimizerSpec) (replicas_to_aggregate : Nat)
      (replica_id : Nat)
deriving Repr, DecidableEq

/-- The training operation returned by `optimizer.minimize(loss,
var_list=params, global_step=global_step)`: it records the optimizer and,
crucially, the explicit variable list it updates (never the graph-global
trainable-variable collection). -/
structure TrainOp where
  optimizer : OptimizerSpec
  var_list : List Variable
deriving Repr, DecidableEq

/-- Reading a field of the opaque config object: an absent field raises an
`AttributeError` (modelled as `Except.error`). -/
def getAttr (fieldName : String) : Option Rat → Except String Rat
  | some v => .ok v
  | none => .error ("AttributeError: " ++ fieldName)

/-- Embedding of `Network._init_optimizer` (network.py:159-203).  The
Python dispatch dictionary is a dict literal whose `momentum` and `rmsprop`
entries call `partial(..., momentum=config.momentum)` and
`partial(..., decay=config.rmsprop_decay)`; a dict literal evaluates all of
its values eagerly, so both fields are read before the `.get` lookup, for
every optimizer name.  An unknown name then raises
`RuntimeError('Unsupported optimizer ...')`; otherwise the optimizer is
instantiated with `config.lr`, wrapped in `SyncReplicasOptimizer` when
`config.sync` is set, and `minimize` is called with `var_list=params`. -/
def init_optimizer (config : Config) (params : List Variable)
    (num_replicas : Nat) : Except String TrainOp :=
  match getAttr "momentum" config.momentum with
  | .error e => .error e
  | .ok mom =>
    match getAttr "rmsprop_decay" config.rmsprop_decay with
    | .error e => .error e
    | .ok dec =>
      let opt : Option (Rat → OptimizerSpec) :=
        match config.optimizer with
        | "adadelta" => some .adadelta
        | "adagrad" => some .adagrad
        | "adam" => some .adam
        | "ftrl" => some .ftrl
        | "sgd" => some .sgd
        | "momentum" => some (fun lr => .momentum lr mom)
        | "rmsprop" => some (fun lr => .rmsprop lr dec)
        | _ => none
      match opt with
      | none => .error ("Unsupported optimizer " ++ config.optimizer)
      | some mk =>
        let optimizer := mk config.lr
        let optimizer :=
          if config.sync then
            OptimizerSpec.syncReplicas optimizer num_replicas config.task_id
          else optimizer
        .ok { optimizer := optimizer, var_list := params }

/-- The architecture constants of `SimpleNetwork`. -/
def SimpleNetwork.HIDDEN1_SIZE : Nat := 20
def SimpleNetwork.HIDDEN2_SIZE : Nat := 20

/-- Embedding of `SimpleNetwork._init_params` (network.py:262-296): rank-1
input check, then three (weight, bias) pairs under scopes `hidden1`,
`hidden2`, `output`, weights truncated-normal (stddev 0.01), biases zero.
Returned flat, in tuple order `(w1, b1, w2, b2, w3, b3)`. -/
def SimpleNetwork.init_params (scope : String) (input_shape : List Nat)
    (output_size : Nat) (collections : Option (List String)) :
    Except String (List Variable) :=
  if input_shape.length ≠ 1 then
    .error "SimpleNetwork expects 1-d input"
  else
    let input_size := input_shape.headD 0
    let weight_init := Initializer.truncatedNormal (1 / 100)
    let bias_init := Initializer.constant 0
    let w1 := get_variable (scope ++ "hidden1/") "w"
      [input_size, SimpleNetwork.HIDDEN1_SIZE] weight_init collections
    let b1 := get_variable (scope ++ "hidden1/") "b"
      [SimpleNetwork.HIDDEN1_SIZE] bias_init collections
    let w2 := get_variable (scope ++ "hidden2/") "w"
      [SimpleNetwork.HIDDEN1_SIZE, SimpleNetwork.HIDDEN2_SIZE] weight_init
      collections
    let b2 := get_variable (scope ++ "hidden2/") "b"
      [SimpleNetwork.HIDDEN2_SIZE] bias_init collections
    let w3 := get_variable (scope ++ "output/") "w"
      [SimpleNetwork.HIDDEN2_SIZE, output_size] weight_init collections
    let b3 := get_variable (scope ++ "output/") "b"
      [output_size] bias_init collections
    .ok [w1, b1, w2, b2, w3, b3]

/-- Embedding of `SimpleNetwork._init_layers` (network.py:298-313): tanh
after the first two affine transforms, a bare affine output, and an L2
penalty summed over the three weight tensors only.  Python tuple unpacking
`w1, b1, w2, b2, w3, b3 = params` fails unless the sequence has exactly six
elements, hence the `Option`. -/
def SimpleNetwork.init_layers (inputs : T) (params : List Variable) :
    Option (T × T) :=
  match params with
  | [w1, b1, w2, b2, w3, b3] =>
    let a1 := T.tanh (T.add (T.matmul inputs (T.var w1)) (T.var b1))
    let a2 := T.tanh (T.add (T.matmul a1 (T.var w2)) (T.var b2))
    let output := T.add (T.matmul a2 (T.var w3)) (T.var b3)
    let reg_loss := sum_l2 [w1, w2, w3]
    some (output, reg_loss)
  | _ => none

/-- The architecture constants of `ConvNetwork` (network.py:318-333). -/
def ConvNetwork.CONV1_FILTERS : Nat := 32
def ConvNetwork.CONV1_SIZE : Nat := 8
def ConvNetwork.CONV1_STRIDE : Nat := 4
def ConvNetwork.CONV2_FILTERS : Nat := 64
def ConvNetwork.CONV2_SIZE : Nat := 4
def ConvNetwork.CONV2_STRIDE : Nat := 2
def ConvNetwork.CONV3_FILTERS : Nat := 64
def ConvNetwork.CONV3_SIZE : Nat := 3
def ConvNetwork.CONV3_STRIDE : Nat := 1
def ConvNetwork.POOL_SIZE : List Nat := [1, 2, 2, 1]
def ConvNetwork.POOL_STRIDE : List Nat := [1, 2, 2, 1]
def ConvNetwork.FULLY_CONNECTED_SIZE : Nat := 256

/-- Embedding of `ConvNetwork._init_params` (network.py:335-387): rank-3
input check, then three convolutional filter/bias pairs (`conv1`..`conv3`),
a fully-connected 256→256 pair (`fcl`) and a 256→output pair (`output`),
with the same initializers as the simple variant.  Returned flat, in tuple
order `(w1, b1, ..., w5, b5)`. -/
def ConvNetwork.init_params (scope : String) (input_shape : List Nat)
    (output_size : Nat) (collections : Option (List String)) :
    Except String (List Variable) :=
  if input_shape.length ≠ 3 then
    .error "ConvNetwork expects 3-d input"
  else
    let weight_init := Initializer.truncatedNormal (1 / 100)
    let bias_init := Initializer.constant 0
    let w1 := get_variable (scope ++ "conv1/") "w"
      [ConvNetwork.CONV1_SIZE, ConvNetwork.CONV1_SIZE,
        input_shape.getD 2 0, ConvNetwork.CONV1_FILTERS] weight_init
      collections
    let b1 := get_variable (scope ++ "conv1/") "b"
      [ConvNetwork.CONV1_FILTERS] bias_init collections
    let w2 := get_variable (scope ++ "conv2/") "w"
      [ConvNetwork.CONV2_SIZE, ConvNetwork.CONV2_SIZE,
        ConvNetwork.CONV1_FILTERS, ConvNetwork.CONV2_FILTERS] weight_init
      collections
    let b2 := get_variable (scope ++ "conv2/") "b"
      [ConvNetwork.CONV2_FILTERS] bias_init collections
    let w3 := get_variable (scope ++ "conv3/") "w"
      [ConvNetwork.CONV3_SIZE, ConvNetwork.CONV3_SIZE,
        ConvNetwork.CONV2_FILTERS, ConvNetwork.CONV3_FILTERS] weight_init
      collections
    let b3 := get_variable (scope ++ "conv3/") "b"
      [ConvNetwork.CONV3_FILTERS] bias_init collections
    let w4 := get_variable (scope ++ "fcl/") "w"
      [ConvNetwork.FULLY_CONNECTED_SIZE, ConvNetwork.FULLY_CONNECTED_SIZE]
      weight_init collections
    let b4 := get_variable (scope ++ "fcl/") "b"
      [ConvNetwork.FULLY_CONNECTED_SIZE] bias_init collections
    let w5 := get_variable (scope ++ "output/") "w"
      [ConvNetwork.FULLY_CONNECTED_SIZE, output_size] weight_init
      collections
    let b5 := get_variable (scope ++ "output/") "b"
      [output_size] bias_init collections
    .ok [w1, b1, w2, b2, w3, b3, w4, b4, w5, b5]

/-- `ConvNetwork.conv_stride` (network.py:411-413). -/
def ConvNetwork.conv_stride (stride : Nat) : List Nat :=
  [1, stride, stride, 1]

/-- `ConvNetwork.max_pool` (network.py:421-424): 2×2 max-pooling with
stride 2 and "SAME" padding. -/
def ConvNetwork.max_pool (a : T) : T :=
  T.maxpool a ConvNetwork.POOL_SIZE ConvNetwork.POOL_STRIDE "SAME"

/-- `ConvNetwork.conv_pool` (network.py:415-419): 2-D convolution with
"SAME" padding at the given stride, bias addition, ReLU, then max-pool. -/
def ConvNetwork.conv_pool (inputs filters bias : T) (stride : Nat) : T :=
  ConvNetwork.max_pool
    (T.relu (T.add (T.conv2d inputs filters (ConvNetwork.conv_stride stride)
      "SAME") bias))

/-- Embedding of `ConvNetwork._init_layers` (network.py:389-409): three
conv-pool blocks at strides 4, 2, 1, a flatten to `[-1, 256]`, a ReLU
fully-connected layer, a bare affine output, and an L2 penalty over the two
fully-connected weights only. -/
def ConvNetwork.init_layers (inputs : T) (params : List Variable) :
    Option (T × T) :=
  match params with
  | [w1, b1, w2, b2, w3, b3, w4, b4, w5, b5] =>
    let a1 := ConvNetwork.conv_pool inputs (T.var w1) (T.var b1)
      ConvNetwork.CONV1_STRIDE
    let a2 := ConvNetwork.conv_pool a1 (T.var w2) (T.var b2)
      ConvNetwork.CONV2_STRIDE
    let a3 := ConvNetwork.conv_pool a2 (T.var w3) (T.var b3)
      ConvNetwork.CONV3_STRIDE
    let a3_flat := T.reshape a3 [-1, (ConvNetwork.FULLY_CONNECTED_SIZE : Int)]
    let a4 := T.relu (T.add (T.matmul a3_flat (T.var w4)) (T.var b4))
    let output := T.add (T.matmul a4 (T.var w5)) (T.var b5)
    let reg_loss := sum_l2 [w4, w5]
    some (output, reg_loss)
  | _ => none

/-- The closed architecture enumeration behind the factory dictionary
`{'simple': SimpleNetwork, 'cnn': ConvNetwork}` (network.py:41-44). -/
inductive NetType where
  | simple
  | cnn
deriving Repr, DecidableEq

/-- Architecture dispatch for `_init_params`. -/
def NetType.init_params : NetType → String → List Nat → Nat →
    Option (List String) → Except String (List Variable)
  | .simple => SimpleNetwork.init_params
  | .cnn => ConvNetwork.init_params

/-- Architecture dispatch for `_init_layers`. -/
def NetType.init_layers : NetType → T → List Variable → Option (T × T)
  | .simple => SimpleNetwork.init_layers
  | .cnn => ConvNetwork.init_layers

/-- A target-update operation `tf.assign(target_p, p)`: assigns the current
value of `value` (an online parameter) into `target` (the corresponding
target parameter). -/
structure AssignOp where
  target : Variable
  value : Variable
deriving Repr, DecidableEq

/-- Embedding of `Network._init_target_network` (network.py:205-254):
choose the target-parameter collections from the replication policy
(worker-local `LOCAL_VARIABLES` when replication is enabled, an explicitly
empty collection list otherwise), rebuild params and layers under the
`target` variable scope on the same `inputs` tensor, and produce one
`tf.assign(target_p, p)` per element of `zip(target_params, params)`.
The Python function returns `(target_q_output, target_update_ops)`; the
locally constructed `target_params` sequence is additionally returned here
so that invariants about it can be stated. -/
def init_target_network (net : NetType) (config : Config) (inputs : T)
    (input_shape : List Nat) (output_size : Nat) (params : List Variable) :
    Except String (T × List AssignOp × List Variable) :=
  match net.init_params "target/" input_shape output_size
      (if ¬config.disable_target_replication then some ["local_variables"]
       else some []) with
  | .error e => .error e
  | .ok target_params =>
    match net.init_layers inputs target_params with
    | none => .error "ValueError: params unpacking"
    | some (target_q_output, _) =>
      let target_update_ops := (target_params.zip params).map
        (fun p => AssignOp.mk p.1 p.2)
      .ok (target_q_output, target_update_ops, target_params)

/-- The assembled `Network` object: the public handles set by
`_init_network` (network.py:59-116), together with the online and target
parameter sequences (the local values `params` and `target_params` of the
assembly, retained here so that invariants about them can be stated). -/
structure Network where
  x_placeholder : T
  q_placeholder : T
  action_placeholder : T
  q_output : T
  train_op : TrainOp
  target_q_output : T
  target_update_ops : List AssignOp
  params : List Variable
  target_params : List Variable
deriving Repr, DecidableEq

/-- Embedding of `Network._init_network` (network.py:59-116): create the
three placeholders, build the online params and layers, build the training
operation over the online parameter list, then assemble the target network
on the same input placeholder.  (The loss value fed to `minimize` is
embedded denotationally by `init_loss`; the training operation's effect is
determined by its `var_list`.) -/
def init_network (net : NetType) (config : Config) (input_shape : List Nat)
    (num_actions : Nat) (num_replicas : Nat) : Except String Network :=
  match net.init_params "" input_shape num_actions none with
  | .error e => .error e
  | .ok params =>
    match net.init_layers (T.placeholder "x") params with
    | none => .error "ValueError: params unpacking"
    | some (q_output, _reg_loss) =>
      match init_optimizer config params num_replicas with
      | .error e => .error e
      | .ok train_op =>
        match init_target_network net config (T.placeholder "x") input_shape
            num_actions params with
        | .error e => .error e
        | .ok (target_q_output, target_update_ops, target_params) =>
          .ok {
            x_placeholder := T.placeholder "x"
            q_placeholder := T.placeholder "q"
            action_placeholder := T.placeholder "action"
            q_output := q_output
            train_op := train_op
            target_q_output := target_q_output
            target_update_ops := target_update_ops
            params := params
            target_params := target_params
          }

/-- Embedding of `Network.create_network` (network.py:35-57): look the
architecture up by `config.network`; an unknown name raises
`RuntimeError('Unsupported network type ...')` before any construction
happens; otherwise run full graph assembly. -/
def create_network (config : Config) (input_shape : List Nat)
    (num_actions : Nat) (num_replicas : Nat) : Except String Network :=
  match config.network with
  | "simple" => init_network .simple config input_shape num_actions
      num_replicas
  | "cnn" => init_network .cnn config input_shape num_actions num_replicas
  | _ => .error ("Unsupported network type " ++ config.network)

/-- Training-time variable state: the current value of every named
variable slot. -/
def VarState : Type := String → Rat

/-- Executing the built training operation once on a fed batch:
`optimizer.minimize(loss, var_list=params, global_step=global_step)`
applies the optimizer's computed per-variable update `delta` to exactly
the variables of its explicit `var_list`, and increments the global step
counter; no other variable slot is written. -/
def runTrainOp (op : TrainOp) (delta : String → Rat) (s : VarState) :
    VarState :=
  fun v =>
    if (op.var_list.map Variable.name).contains v then s v + delta v
    else if v = "global_step" then s v + 1
    else s v

/-- Executing a list of target-update operations: each
`tf.assign(target_p, p)` writes the current value of the online parameter
`p` into the slot of `target_p`.  The assigns read only online parameters,
which no assign in the list writes, so reads are of the pre-update state. -/
def runTargetUpdates (ops : List AssignOp) (s : VarState) : VarState :=
  fun v =>
    match ops.find? (fun op => op.target.name == v) with
    | some op => s op.value.name
    | none => s v

/-- The registered architecture names (keys of the factory dictionary,
network.py:41-44). -/
def supportedNetworks : List String := ["simple", "cnn"]

/-- The registered optimizer names (keys of the optimizer dictionary,
network.py:169-177). -/
def supportedOptimizers : List String :=
  ["adadelta", "adagrad", "adam", "ftrl", "sgd", "momentum", "rmsprop"]

/-- A concrete configuration selecting the simple architecture. -/
def cfgSimple : Config :=
  { network := "simple", optimizer := "sgd", lr := 1/10,
    momentum := some (9/10), rmsprop_decay := some (9/10),
    reg_param := 1/1000, sync := false, task_id := 0,
    disable_target_replication := false }

/-- A concrete configuration selecting the convolutional architecture. -/
def cfgCnn : Config :=
  { cfgSimple with network := "cnn" }

/-- A concrete configuration selecting the `sgd` optimizer on a config
object that has no `momentum` attribute. -/
def cfgSgdNoMomentum : Config :=
  { cfgSimple with momentum := none }

/-- A concrete configuration with unregistered architecture and optimizer
names. -/
def cfgUnknown : Config :=
  { network := "resnet", optimizer := "lbfgs", lr := 1/10,
    momentum := some (9/10), rmsprop_decay := some (9/10),
    reg_param := 1/1000, sync := false, task_id := 0,
    disable_target_replication := false }

/-- A placeholder `Network` value used only as the default of `Option.getD`
below. -/
def dummyNet : Network :=
  { x_placeholder := T.lit 0, q_placeholder := T.lit 0,
    action_placeholder := T.lit 0, q_output := T.lit 0,
    train_op := { optimizer := .sgd 0, var_list := [] },
    target_q_output := T.lit 0, target_update_ops := [],
    params := [], target_params := [] }

/-- The concrete simple-variant network built from `cfgSimple` with input
shape `[4]` and 2 actions. -/
def netSimple : Network :=
  (create_network cfgSimple [4] 2 1).toOption.getD dummyNet

/-- The concrete convolutional-variant network built from `cfgCnn` with
input shape `[84, 84, 4]` and 2 actions. -/
def netCnn : Network :=
  (create_network cfgCnn [84, 84, 4] 2 1).toOption.getD dummyNet

/-- Characterization of a successful `SimpleNetwork.init_params` call at
the online (empty) scope: the input shape had rank 1 and the result is the
flat six-element sequence `(w1, b1, w2, b2, w3, b3)`. -/
theorem simple_params_ok_online (shape : List Nat) (n : Nat)
    (cols : Option (List String)) (ps : List Variable)
    (h : SimpleNetwork.init_params "" shape n cols = .ok ps) :
    shape.length = 1 ∧
    ps = [⟨"hidden1/w", [shape.headD 0, 20], .truncatedNormal (1/100), cols⟩,
          ⟨"hidden1/b", [20], .constant 0, cols⟩,
          ⟨"hidden2/w", [20, 20], .truncatedNormal (1/100), cols⟩,
          ⟨"hidden2/b", [20], .constant 0, cols⟩,
          ⟨"output/w", [20, n], .truncatedNormal (1/100), cols⟩,
          ⟨"output/b", [n], .constant 0, cols⟩] := by
  unfold SimpleNetwork.init_params at h
  split at h
  · simp at h
  · next hlen =>
    refine ⟨by omega, ?_⟩
    injection h with h2
    subst h2
    rfl

/-- Characterization of a successful `SimpleNetwork.init_params` call at
the `target` scope. -/
theorem simple_params_ok_target (shape : List Nat) (n : Nat)
    (cols : Option (List String)) (ps : List Variable)
    (h : SimpleNetwork.init_params "target/" shape n cols = .ok ps) :
    shape.length = 1 ∧
    ps = [⟨"target/hidden1/w", [shape.headD 0, 20],
            .truncatedNormal (1/100), cols⟩,
          ⟨"target/hidden1/b", [20], .constant 0, cols⟩,
          ⟨"target/hidden2/w", [20, 20], .truncatedNormal (1/100), cols⟩,
          ⟨"target/hidden2/b", [20], .constant 0, cols⟩,
          ⟨"target/output/w", [20, n], .truncatedNormal (1/100), cols⟩,
          ⟨"target/output/b", [n], .constant 0, cols⟩] := by
  unfold SimpleNetwork.init_params at h
  split at h
  · simp at h
  · next hlen =>
    refine ⟨by omega, ?_⟩
    injection h with h2
    subst h2
    rfl

/-- Characterization of a successful `ConvNetwork.init_params` call at the
online (empty) scope: the input shape had rank 3 and the result is the
flat ten-element sequence `(w1, b1, ..., w5, b5)`. -/
theorem conv_params_ok_online (shape : List Nat) (n : Nat)
    (cols : Option (List String)) (ps : List Variable)
    (h : ConvNetwork.init_params "" shape n cols = .ok ps) :
    shape.length = 3 ∧
    ps = [⟨"conv1/w", [8, 8, shape.getD 2 0, 32],
            .truncatedNormal (1/100), cols⟩,
          ⟨"conv1/b", [32], .constant 0, cols⟩,
          ⟨"conv2/w", [4, 4, 32, 64], .truncatedNormal (1/100), cols⟩,
          ⟨"conv2/b", [64], .constant 0, cols⟩,
          ⟨"conv3/w", [3, 3, 64, 64], .truncatedNormal (1/100), cols⟩,
          ⟨"conv3/b", [64], .constant 0, cols⟩,
          ⟨"fcl/w", [256, 256], .truncatedNormal (1/100), cols⟩,
          ⟨"fcl/b", [256], .constant 0, cols⟩,
          ⟨"output/w", [256, n], .truncatedNormal (1/100), cols⟩,
          ⟨"output/b", [n], .constant 0, cols⟩] := by
  unfold ConvNetwork.init_params at h
  split at h
  · simp at h
  · next hlen =>
    refine ⟨by omega, ?_⟩
    injection h with h2
    subst h2
    rfl

/-- Characterization of a successful `ConvNetwork.init_params` call at the
`target` scope. -/
theorem conv_params_ok_target (shape : List Nat) (n : Nat)
    (cols : Option (List String)) (ps : List Variable)
    (h : ConvNetwork.init_params "target/" shape n cols = .ok ps) :
    shape.length = 3 ∧
    ps = [⟨"target/conv1/w", [8, 8, shape.getD 2 0, 32],
            .truncatedNormal (1/100), cols⟩,
          ⟨"target/conv1/b", [32], .constant 0, cols⟩,
          ⟨"target/conv2/w", [4, 4, 32, 64], .truncatedNormal (1/100), cols⟩,
          ⟨"target/conv2/b", [64], .constant 0, cols⟩,
          ⟨"target/conv3/w", [3, 3, 64, 64], .truncatedNormal (1/100), cols⟩,
          ⟨"target/conv3/b", [64], .constant 0, cols⟩,
          ⟨"target/fcl/w", [256, 256], .truncatedNormal (1/100), cols⟩,
          ⟨"target/fcl/b", [256], .constant 0, cols⟩,
          ⟨"target/output/w", [256, n], .truncatedNormal (1/100), cols⟩,
          ⟨"target/output/b", [n], .constant 0, cols⟩] := by
  unfold ConvNetwork.init_params at h
  split at h
  · simp at h
  · next hlen =>
    refine ⟨by omega, ?_⟩
    injection h with h2
    subst h2
    rfl

/-- A successful `_init_optimizer` call always builds its minimization
operation over exactly the supplied online parameter list. -/
theorem init_optimizer_ok_var_list (config : Config) (params : List Variable)
    (num_replicas : Nat) (t : TrainOp)
    (h : init_optimizer config params num_replicas = .ok t) :
    t.var_list = params := by
  unfold init_optimizer at h
  split at h
  · simp at h
  · split at h
    · simp at h
    · split at h <;> first
        | (cases h; rfl)
        | simp_all

/-- Characterization of a successful `_init_target_network` call: the
target parameters come from the same parameter builder under the `target`
scope with the replication-policy collections, the update operations are
one `tf.assign(target_p, p)` per zipped pair, and the target output comes
from the same layer builder applied to the same `inputs` tensor. -/
theorem init_target_network_ok_anatomy (nt : NetType) (config : Config)
    (inputs : T) (shape : List Nat) (n : Nat) (params : List Variable)
    (out : T × List AssignOp × List Variable)
    (h : init_target_network nt config inputs shape n params = .ok out) :
    nt.init_params "target/" shape n
      (if ¬config.disable_target_replication then some ["local_variables"]
       else some []) = .ok out.2.2 ∧
    out.2.1 = (out.2.2.zip params).map (fun p => AssignOp.mk p.1 p.2) ∧
    Option.map Prod.fst (nt.init_layers inputs out.2.2) = some out.1 := by
  unfold init_target_network at h
  split at h
  · simp at h
  · next target_params heq =>
    split at h
    · simp at h
    · next tq hlayers =>
      cases h
      exact ⟨heq, rfl, by rw [hlayers]; rfl⟩

/-- Characterization of a successful `_init_network` run: ties every
public handle of the assembled `Network` to the builder that produced it. -/
theorem init_network_ok_anatomy (nt : NetType) (config : Config)
    (shape : List Nat) (n r : Nat) (net : Network)
    (h : init_network nt config shape n r = .ok net) :
    nt.init_params "" shape n none = .ok net.params ∧
    nt.init_params "target/" shape n
      (if ¬config.disable_target_replication then some ["local_variables"]
       else some []) = .ok net.target_params ∧
    net.train_op.var_list = net.params ∧
    net.target_update_ops =
      (net.target_params.zip net.params).map (fun p => AssignOp.mk p.1 p.2) ∧
    net.x_placeholder = T.placeholder "x" ∧
    Option.map Prod.fst (nt.init_layers (T.placeholder "x") net.params) =
      some net.q_output ∧
    Option.map Prod.fst (nt.init_layers (T.placeholder "x")
      net.target_params) = some net.target_q_output := by
  unfold init_network at h
  split at h
  · simp at h
  · next params hparams =>
    split at h
    · simp at h
    · next q_output reg hlayers =>
      split at h
      · simp at h
      · next train_op hopt =>
        split at h
        · simp at h
        · next tq ops tps htarget =>
          cases h
          have htn := init_target_network_ok_anatomy nt config
            (T.placeholder "x") shape n params (tq, ops, tps) htarget
          exact ⟨hparams, htn.1, init_optimizer_ok_var_list config params r
            train_op hopt, htn.2.1, rfl, by rw [hlayers]; rfl, htn.2.2⟩

/-- Characterization of a successful factory call: the architecture is one
of the two registered ones and assembly ran on it. -/
theorem create_network_ok_anatomy (config : Config) (shape : List Nat)
    (n r : Nat) (net : Network)
    (h : create_network config shape n r = .ok net) :
    (config.network = "simple" ∧
      init_network .simple config shape n r = .ok net) ∨
    (config.network = "cnn" ∧
      init_network .cnn config shape n r = .ok net) := by
  unfold create_network at h
  split at h
  · next heq => exact Or.inl ⟨heq, h⟩
  · next heq => exact Or.inr ⟨heq, h⟩
  · simp at h

/-- C4: the loss builder multiplies the predicted output elementwise by the
one-hot action mask, sums across the action dimension, and takes the mean
squared difference from the expected-value placeholder; a supplied
regularization penalty is added scaled by `config.reg_param`.  For output
`[[1, 2]]`, mask `[[0, 1]]`, expected value `[1.5]` the loss is
`(2 - 1.5)^2 = 1/4`, plus the scaled penalty when one is configured and
exactly `1/4` when none is. -/
theorem C4_loss_formula (reg_param : Rat) :
    init_loss reg_param [[1, 2]] [3/2] [[0, 1]] none = 1/4 ∧
    (∀ r : Rat, init_loss reg_param [[1, 2]] [3/2] [[0, 1]] (some r) =
      1/4 + reg_param * r) ∧
    (∀ (q : List (List Rat)) (e : List Rat) (a : List (List Rat)) (r : Rat),
      init_loss reg_param q e a (some r) =
        init_loss reg_param q e a none + reg_param * r) := by
  refine ⟨by norm_num [init_loss], fun r => by norm_num [init_loss], ?_⟩
  intro q e a r
  simp [init_loss]

/-- C5: a configuration whose `network` field is not a registered
architecture name makes the factory fail immediately with the
unsupported-network error, and a configuration whose `optimizer` field is
not a registered optimizer name makes the optimizer builder fail with the
unsupported-optimizer error (given that the `momentum` and `rmsprop_decay`
attributes exist on the config object, which the builder reads first);
both failures are deterministic error returns produced before any further
construction step runs. -/
theorem C5_unsupported_selectors (config : Config) (shape : List Nat)
    (n r : Nat) (params : List Variable) :
    (config.network ∉ supportedNetworks →
      create_network config shape n r =
        .error ("Unsupported network type " ++ config.network)) ∧
    (config.optimizer ∉ supportedOptimizers →
      config.momentum.isSome → config.rmsprop_decay.isSome →
      init_optimizer config params r =
        .error ("Unsupported optimizer " ++ config.optimizer)) := by
  constructor
  · intro hn
    unfold create_network
    split
    · next heq => exact absurd (by simp [supportedNetworks, heq]) hn
    · next heq => exact absurd (by simp [supportedNetworks, heq]) hn
    · rfl
  · intro ho hm hd
    obtain ⟨m, hm⟩ := Option.isSome_iff_exists.mp hm
    obtain ⟨d, hd⟩ := Option.isSome_iff_exists.mp hd
    unfold init_optimizer
    rw [hm, hd]
    split
    · next e he => simp [getAttr] at he
    · next mval hmv =>
      split
      · next e he => simp [getAttr] at he
      · next dval hdv =>
        split
        all_goals try rfl
        all_goals next heq =>
          exact absurd (by simp [supportedOptimizers, heq]) ho

/-- Witness for C5 at a concrete configuration with unregistered selector
names. -/
theorem C5_unsupported_selectors_witness :
    cfgUnknown.network ∉ supportedNetworks ∧
    create_network cfgUnknown [4] 2 1 =
      .error ("Unsupported network type " ++ "resnet") ∧
    init_optimizer cfgUnknown [] 1 =
      .error ("Unsupported optimizer " ++ "lbfgs") :=
  ⟨by decide,
   (C5_unsupported_selectors cfgUnknown [4] 2 1 []).1 (by decide),
   (C5_unsupported_selectors cfgUnknown [4] 2 1 []).2
     (by decide) (by decide) (by decide)⟩

/-- C6: the simple parameter builder rejects every input shape of rank
other than 1 with its shape-mismatch error and passes its rank check on
every rank-1 shape; the convolutional parameter builder rejects every
input shape of rank other than 3 and passes on every rank-3 shape. -/
theorem C6_rank_checks (scope : String) (shape : List Nat) (n : Nat)
    (cols : Option (List String)) :
    (shape.length ≠ 1 →
      SimpleNetwork.init_params scope shape n cols =
        .error "SimpleNetwork expects 1-d input") ∧
    (shape.length = 1 →
      ∃ ps, SimpleNetwork.init_params scope shape n cols = .ok ps) ∧
    (shape.length ≠ 3 →
      ConvNetwork.init_params scope shape n cols =
        .error "ConvNetwork expects 3-d input") ∧
    (shape.length = 3 →
      ∃ ps, ConvNetwork.init_params scope shape n cols = .ok ps) := by
  refine ⟨fun h => ?_, fun h => ?_, fun h => ?_, fun h => ?_⟩
  · unfold SimpleNetwork.init_params; rw [if_pos h]
  · unfold SimpleNetwork.init_params; rw [if_neg (by omega)]
    exact ⟨_, rfl⟩
  · unfold ConvNetwork.init_params; rw [if_pos h]
  · unfold ConvNetwork.init_params; rw [if_neg (by omega)]
    exact ⟨_, rfl⟩

/-- Witness for C6 at the spec's example shapes: the rank-3 shape
`[84, 84, 4]` is rejected by the simple variant and the rank-1 shape
`[10]` is rejected by the convolutional variant. -/
theorem C6_rank_checks_witness :
    SimpleNetwork.init_params "" [84, 84, 4] 2 none =
      .error "SimpleNetwork expects 1-d input" ∧
    ConvNetwork.init_params "" [10] 2 none =
      .error "ConvNetwork expects 3-d input" :=
  ⟨(C6_rank_checks "" [84, 84, 4] 2 none).1 (by decide),
   (C6_rank_checks "" [10] 2 none).2.2.1 (by decide)⟩

/-- Executing the training operation leaves untouched every variable slot
that is neither in its explicit `var_list` nor the global step. -/
theorem runTrainOp_frame (op : TrainOp) (delta : String → Rat) (s : VarState)
    (v : String) (hc : (op.var_list.map Variable.name).contains v = false)
    (hg : v ≠ "global_step") : runTrainOp op delta s v = s v := by
  simp only [runTrainOp]
  rw [hc]
  simp [hg]

/-- Executing the training operation applies the optimizer's update to
every variable slot in its explicit `var_list`. -/
theorem runTrainOp_writes (op : TrainOp) (delta : String → Rat)
    (s : VarState) (v : String)
    (hc : (op.var_list.map Variable.name).contains v = true) :
    runTrainOp op delta s v = s v + delta v := by
  simp only [runTrainOp]
  rw [hc]
  simp

/-- C7 counterexample: the claim asserts that, for a configuration
selecting a supported optimizer other than `momentum`/`rmsprop`,
construction succeeds without accessing the momentum and rmsprop-decay
fields.  On the code this is false: the optimizer dispatch dictionary is a
dict literal, so `config.momentum` is read eagerly even when `sgd` is
selected, and a config object lacking that attribute makes construction
fail with an attribute error instead of succeeding. -/
theorem C7_counterexample :
    cfgSgdNoMomentum.optimizer = "sgd" ∧
    cfgSgdNoMomentum.optimizer ∈ supportedOptimizers ∧
    init_optimizer cfgSgdNoMomentum [] 1 =
      .error "AttributeError: momentum" :=
  ⟨rfl, by decide, rfl⟩

/-- C7 (amended): for every configuration selecting a supported optimizer
other than `momentum` and `rmsprop`, two runs differing only in the
momentum and rmsprop-decay values construct the same training operation;
however, construction does read both fields (the dispatch dictionary is
built eagerly), so it fails whenever the momentum field is absent, even
for such optimizers. -/
theorem C7_momentum_decay_independence (config : Config) (m1 m2 d1 d2 : Rat)
    (params : List Variable) (r : Nat)
    (hopt : config.optimizer ∈
      ["adadelta", "adagrad", "adam", "ftrl", "sgd"]) :
    init_optimizer
        { config with momentum := some m1, rmsprop_decay := some d1 }
        params r =
      init_optimizer
        { config with momentum := some m2, rmsprop_decay := some d2 }
        params r ∧
    (∀ cfg : Config, cfg.momentum = none →
      init_optimizer cfg params r = .error "AttributeError: momentum") := by
  constructor
  · simp only [List.mem_cons, List.not_mem_nil, or_false] at hopt
    rcases hopt with h | h | h | h | h <;>
      simp [init_optimizer, getAttr, h]
  · intro cfg hm
    unfold init_optimizer
    rw [hm]
    rfl

/-- Witness for C7 at a concrete `sgd` configuration: changing the
momentum and rmsprop-decay values does not change the constructed training
operation. -/
theorem C7_momentum_decay_independence_witness :
    init_optimizer
        { cfgSimple with momentum := some 0, rmsprop_decay := some 0 }
        [] 1 =
      init_optimizer
        { cfgSimple with momentum := some 1, rmsprop_decay := some 1 }
        [] 1 :=
  (C7_momentum_decay_independence cfgSimple 0 1 0 1 [] 1 (by decide)).1

/-- C1 counterexample: the claim puts the target-update operation count at
the online (weight, bias) pair count — 3 for the simple variant and 5 for
the convolutional variant.  On the code, `zip(target_params, params)` runs
over the flat parameter tuples, producing 6 and 10 assignment operations
respectively. -/
theorem C1_counterexample :
    Except.map (fun net => net.target_update_ops.length)
      (create_network cfgSimple [4] 2 1) = .ok 6 ∧
    Except.map (fun net => net.target_update_ops.length)
      (create_network cfgCnn [84, 84, 4] 2 1) = .ok 10 ∧
    Except.map (fun net => net.target_update_ops.length)
      (create_network cfgSimple [4] 2 1) ≠ .ok 3 ∧
    Except.map (fun net => net.target_update_ops.length)
      (create_network cfgCnn [84, 84, 4] 2 1) ≠ .ok 5 := by
  have h1 : Except.map (fun net => net.target_update_ops.length)
      (create_network cfgSimple [4] 2 1) = .ok 6 := rfl
  have h2 : Except.map (fun net => net.target_update_ops.length)
      (create_network cfgCnn [84, 84, 4] 2 1) = .ok 10 := rfl
  refine ⟨h1, h2, ?_, ?_⟩
  · rw [h1]; simp
  · rw [h2]; simp

/-- C1 (amended): for both architecture variants, the target-network
assembler produces exactly one assignment operation per online parameter
*tensor* — two per (weight, bias) pair, i.e. 6 operations for the simple
variant's 3 pairs and 10 for the convolutional variant's 5 pairs — and, in
order, each operation assigns the online parameter's current value into
the corresponding target parameter. -/
theorem C1_one_assign_per_param_tensor (config : Config) (shape : List Nat)
    (n r : Nat) (net : Network)
    (h : create_network config shape n r = .ok net) :
    net.target_update_ops.length = net.params.length ∧
    net.target_update_ops.map AssignOp.value = net.params ∧
    net.target_update_ops.map AssignOp.target = net.target_params ∧
    (config.network = "simple" → net.params.length = 6) ∧
    (config.network = "cnn" → net.params.length = 10) := by
  rcases create_network_ok_anatomy config shape n r net h with
    ⟨hn, hi⟩ | ⟨hn, hi⟩
  · obtain ⟨hp, htp, _, hops, _, _, _⟩ :=
      init_network_ok_anatomy _ _ _ _ _ _ hi
    simp only [NetType.init_params] at hp htp
    obtain ⟨_, hp2⟩ := simple_params_ok_online _ _ _ _ hp
    obtain ⟨_, htp2⟩ := simple_params_ok_target _ _ _ _ htp
    refine ⟨?_, ?_, ?_, fun _ => by rw [hp2]; rfl,
      fun hc => absurd (hn.symm.trans hc) (by decide)⟩
    · rw [hops, hp2, htp2]; rfl
    · rw [hops, hp2, htp2]; rfl
    · rw [hops, hp2, htp2]; rfl
  · obtain ⟨hp, htp, _, hops, _, _, _⟩ :=
      init_network_ok_anatomy _ _ _ _ _ _ hi
    simp only [NetType.init_params] at hp htp
    obtain ⟨_, hp2⟩ := conv_params_ok_online _ _ _ _ hp
    obtain ⟨_, htp2⟩ := conv_params_ok_target _ _ _ _ htp
    refine ⟨?_, ?_, ?_,
      fun hc => absurd (hn.symm.trans hc) (by decide),
      fun _ => by rw [hp2]; rfl⟩
    · rw [hops, hp2, htp2]; rfl
    · rw [hops, hp2, htp2]; rfl
    · rw [hops, hp2, htp2]; rfl

/-- Witness for the amended C1 at the concrete simple and convolutional
networks. -/
theorem C1_one_assign_per_param_tensor_witness :
    (netSimple.target_update_ops.length = netSimple.params.length ∧
      netSimple.params.length = 6) ∧
    (netCnn.target_update_ops.length = netCnn.params.length ∧
      netCnn.params.length = 10) :=
  ⟨⟨(C1_one_assign_per_param_tensor cfgSimple [4] 2 1 netSimple rfl).1,
    (C1_one_assign_per_param_tensor cfgSimple [4] 2 1 netSimple rfl).2.2.2.1
      rfl⟩,
   ⟨(C1_one_assign_per_param_tensor cfgCnn [84, 84, 4] 2 1 netCnn rfl).1,
    (C1_one_assign_per_param_tensor cfgCnn [84, 84, 4] 2 1 netCnn
      rfl).2.2.2.2 rfl⟩⟩

/-- C2: for every configuration and valid input shape, and for both
architecture variants, the online and target parameter sequences have
identical length, identical per-position tensor shapes, and identical
ordering — the i-th target parameter is exactly the `target`-scoped
counterpart of the i-th online parameter. -/
theorem C2_param_sequences_aligned (config : Config) (shape : List Nat)
    (n r : Nat) (net : Network)
    (h : create_network config shape n r = .ok net) :
    net.target_params.length = net.params.length ∧
    net.target_params.map Variable.shape = net.params.map Variable.shape ∧
    net.target_params.map Variable.name =
      net.params.map (fun p => "target/" ++ p.name) := by
  rcases create_network_ok_anatomy config shape n r net h with
    ⟨hn, hi⟩ | ⟨hn, hi⟩
  · obtain ⟨hp, htp, _, _, _, _, _⟩ :=
      init_network_ok_anatomy _ _ _ _ _ _ hi
    simp only [NetType.init_params] at hp htp
    obtain ⟨_, hp2⟩ := simple_params_ok_online _ _ _ _ hp
    obtain ⟨_, htp2⟩ := simple_params_ok_target _ _ _ _ htp
    exact ⟨by rw [hp2, htp2]; rfl, by rw [hp2, htp2]; rfl,
      by rw [hp2, htp2]; rfl⟩
  · obtain ⟨hp, htp, _, _, _, _, _⟩ :=
      init_network_ok_anatomy _ _ _ _ _ _ hi
    simp only [NetType.init_params] at hp htp
    obtain ⟨_, hp2⟩ := conv_params_ok_online _ _ _ _ hp
    obtain ⟨_, htp2⟩ := conv_params_ok_target _ _ _ _ htp
    exact ⟨by rw [hp2, htp2]; rfl, by rw [hp2, htp2]; rfl,
      by rw [hp2, htp2]; rfl⟩

/-- Witness for C2 at the concrete simple and convolutional networks. -/
theorem C2_param_sequences_aligned_witness :
    (netSimple.target_params.length = netSimple.params.length ∧
      netSimple.target_params.map Variable.shape =
        netSimple.params.map Variable.shape) ∧
    (netCnn.target_params.length = netCnn.params.length ∧
      netCnn.target_params.map Variable.shape =
        netCnn.params.map Variable.shape) :=
  ⟨⟨(C2_param_sequences_aligned cfgSimple [4] 2 1 netSimple rfl).1,
    (C2_param_sequences_aligned cfgSimple [4] 2 1 netSimple rfl).2.1⟩,
   ⟨(C2_param_sequences_aligned cfgCnn [84, 84, 4] 2 1 netCnn rfl).1,
    (C2_param_sequences_aligned cfgCnn [84, 84, 4] 2 1 netCnn rfl).2.1⟩⟩

/-- C3: the built training operation is restricted to the explicit online
parameter list, so executing it once applies the optimizer's per-parameter
update to every online parameter — changing each one whenever the computed
update is nonzero, as it is on the spec's fixed-seed, fixed-batch scenario
— while leaving every target parameter's value unchanged; target
parameters change only when a target-update operation is executed, which
copies each online value into its target slot. -/
theorem C3_train_step_frame (config : Config) (shape : List Nat) (n r : Nat)
    (net : Network) (delta : String → Rat) (s : VarState)
    (h : create_network config shape n r = .ok net)
    (hdelta : ∀ p ∈ net.params, delta p.name ≠ 0) :
    net.train_op.var_list = net.params ∧
    (∀ p ∈ net.params,
      runTrainOp net.train_op delta s p.name ≠ s p.name) ∧
    (∀ tp ∈ net.target_params,
      runTrainOp net.train_op delta s tp.name = s tp.name) ∧
    (∀ pr ∈ net.target_params.zip net.params,
      runTargetUpdates net.target_update_ops s
        (Prod.fst pr).name = s (Prod.snd pr).name) := by
  rcases create_network_ok_anatomy config shape n r net h with
    ⟨hn, hi⟩ | ⟨hn, hi⟩
  · obtain ⟨hp, htp, hvl, hops, _, _, _⟩ :=
      init_network_ok_anatomy _ _ _ _ _ _ hi
    simp only [NetType.init_params] at hp htp
    obtain ⟨_, hp2⟩ := simple_params_ok_online _ _ _ _ hp
    obtain ⟨_, htp2⟩ := simple_params_ok_target _ _ _ _ htp
    have hnames : net.train_op.var_list.map Variable.name =
        ["hidden1/w", "hidden1/b", "hidden2/w", "hidden2/b",
         "output/w", "output/b"] := by
      rw [hvl, hp2]; rfl
    refine ⟨hvl, ?_, ?_, ?_⟩
    · intro p hp3
      have hp4 := hp3
      rw [hp2] at hp4
      simp only [List.mem_cons, List.not_mem_nil, or_false] at hp4
      have hc : (net.train_op.var_list.map Variable.name).contains p.name =
          true := by
        rw [hnames]
        rcases hp4 with rfl | rfl | rfl | rfl | rfl | rfl <;> rfl
      rw [runTrainOp_writes net.train_op delta s p.name hc]
      intro hcontra
      exact hdelta p hp3 (by linarith)
    · intro tp htp3
      rw [htp2] at htp3
      simp only [List.mem_cons, List.not_mem_nil, or_false] at htp3
      rcases htp3 with rfl | rfl | rfl | rfl | rfl | rfl <;>
        (dsimp only; apply runTrainOp_frame <;>
          first | (rw [hnames]; rfl) | decide)
    · intro pr hpr
      rw [htp2, hp2] at hpr
      rw [hops, htp2, hp2]
      simp only [List.zip_cons_cons, List.zip_nil_right, List.mem_cons,
        List.not_mem_nil, or_false] at hpr
      rcases hpr with rfl | rfl | rfl | rfl | rfl | rfl <;> rfl
  · obtain ⟨hp, htp, hvl, hops, _, _, _⟩ :=
      init_network_ok_anatomy _ _ _ _ _ _ hi
    simp only [NetType.init_params] at hp htp
    obtain ⟨_, hp2⟩ := conv_params_ok_online _ _ _ _ hp
    obtain ⟨_, htp2⟩ := conv_params_ok_target _ _ _ _ htp
    have hnames : net.train_op.var_list.map Variable.name =
        ["conv1/w", "conv1/b", "conv2/w", "conv2/b", "conv3/w", "conv3/b",
         "fcl/w", "fcl/b", "output/w", "output/b"] := by
      rw [hvl, hp2]; rfl
    refine ⟨hvl, ?_, ?_, ?_⟩
    · intro p hp3
      have hp4 := hp3
      rw [hp2] at hp4
      simp only [List.mem_cons, List.not_mem_nil, or_false] at hp4
      have hc : (net.train_op.var_list.map Variable.name).contains p.name =
          true := by
        rw [hnames]
        rcases hp4 with
          rfl | rfl | rfl | rfl | rfl | rfl | rfl | rfl | rfl | rfl <;> rfl
      rw [runTrainOp_writes net.train_op delta s p.name hc]
      intro hcontra
      exact hdelta p hp3 (by linarith)
    · intro tp htp3
      rw [htp2] at htp3
      simp only [List.mem_cons, List.not_mem_nil, or_false] at htp3
      rcases htp3 with
        rfl | rfl | rfl | rfl | rfl | rfl | rfl | rfl | rfl | rfl <;>
        (dsimp only; apply runTrainOp_frame <;>
          first | (rw [hnames]; rfl) | decide)
    · intro pr hpr
      rw [htp2, hp2] at hpr
      rw [hops, htp2, hp2]
      simp only [List.zip_cons_cons, List.zip_nil_right, List.mem_cons,
        List.not_mem_nil, or_false] at hpr
      rcases hpr with
        rfl | rfl | rfl | rfl | rfl | rfl | rfl | rfl | rfl | rfl <;> rfl

/-- Witness for C3 at the concrete simple network with a unit update on
every parameter: the training operation updates online parameters only. -/
theorem C3_train_step_frame_witness :
    netSimple.train_op.var_list = netSimple.params ∧
    (∀ tp ∈ netSimple.target_params,
      runTrainOp netSimple.train_op (fun _ => 1) (fun _ => 0) tp.name =
        (fun _ => (0 : Rat)) tp.name) :=
  ⟨(C3_train_step_frame cfgSimple [4] 2 1 netSimple (fun _ => 1)
      (fun _ => 0) rfl (fun _ _ => one_ne_zero)).1,
   (C3_train_step_frame cfgSimple [4] 2 1 netSimple (fun _ => 1)
      (fun _ => 0) rfl (fun _ _ => one_ne_zero)).2.2.1⟩

/-- C10: the assembled network exposes exactly the observation placeholder
`x` as tensor input of both output heads: the online output and the target
output each reference the single shared observation placeholder and no
other placeholder, so any batch fed to it is seen identically by both. -/
theorem C10_shared_input_placeholder (config : Config) (shape : List Nat)
    (n r : Nat) (net : Network)
    (h : create_network config shape n r = .ok net) :
    net.x_placeholder = T.placeholder "x" ∧
    net.q_output.placeholders = ["x"] ∧
    net.target_q_output.placeholders = ["x"] := by
  rcases create_network_ok_anatomy config shape n r net h with
    ⟨hn, hi⟩ | ⟨hn, hi⟩
  · obtain ⟨hp, htp, _, _, hx, hq, htq⟩ :=
      init_network_ok_anatomy _ _ _ _ _ _ hi
    simp only [NetType.init_params, NetType.init_layers] at hp htp hq htq
    obtain ⟨_, hp2⟩ := simple_params_ok_online _ _ _ _ hp
    obtain ⟨_, htp2⟩ := simple_params_ok_target _ _ _ _ htp
    rw [hp2] at hq
    rw [htp2] at htq
    simp only [SimpleNetwork.init_layers, Option.map_some] at hq htq
    injection hq with hq2
    injection htq with htq2
    exact ⟨hx, by rw [← hq2]; rfl, by rw [← htq2]; rfl⟩
  · obtain ⟨hp, htp, _, _, hx, hq, htq⟩ :=
      init_network_ok_anatomy _ _ _ _ _ _ hi
    simp only [NetType.init_params, NetType.init_layers] at hp htp hq htq
    obtain ⟨_, hp2⟩ := conv_params_ok_online _ _ _ _ hp
    obtain ⟨_, htp2⟩ := conv_params_ok_target _ _ _ _ htp
    rw [hp2] at hq
    rw [htp2] at htq
    simp only [ConvNetwork.init_layers, Option.map_some] at hq htq
    injection hq with hq2
    injection htq with htq2
    exact ⟨hx, by rw [← hq2]; rfl, by rw [← htq2]; rfl⟩

/-- Witness for C10 at the concrete simple and convolutional networks. -/
theorem C10_shared_input_placeholder_witness :
    (netSimple.q_output.placeholders = ["x"] ∧
      netSimple.target_q_output.placeholders = ["x"]) ∧
    (netCnn.q_output.placeholders = ["x"] ∧
      netCnn.target_q_output.placeholders = ["x"]) :=
  ⟨⟨(C10_shared_input_placeholder cfgSimple [4] 2 1 netSimple rfl).2.1,
    (C10_shared_input_placeholder cfgSimple [4] 2 1 netSimple rfl).2.2⟩,
   ⟨(C10_shared_input_placeholder cfgCnn [84, 84, 4] 2 1 netCnn rfl).2.1,
    (C10_shared_input_placeholder cfgCnn [84, 84, 4] 2 1 netCnn rfl).2.2⟩⟩

/-- C8: the simple variant's parameter builder creates exactly three
trainable (weight, bias) pairs sized input→20, 20→20, 20→action-count,
with truncated-normal (stddev 0.01) weights and zero biases, scoped under
`hidden1`, `hidden2`, `output`; its layer builder applies tanh after each
of the first two affine transforms and no activation after the final one;
and its regularization penalty is the sum of the L2 norms of the three
weight tensors, biases excluded. -/
theorem C8_simple_architecture (k n : Nat) (inputs : T)
    (cols : Option (List String)) :
    SimpleNetwork.init_params "" [k] n cols =
      .ok [⟨"hidden1/w", [k, 20], .truncatedNormal (1/100), cols⟩,
           ⟨"hidden1/b", [20], .constant 0, cols⟩,
           ⟨"hidden2/w", [20, 20], .truncatedNormal (1/100), cols⟩,
           ⟨"hidden2/b", [20], .constant 0, cols⟩,
           ⟨"output/w", [20, n], .truncatedNormal (1/100), cols⟩,
           ⟨"output/b", [n], .constant 0, cols⟩] ∧
    (∀ w1 b1 w2 b2 w3 b3 : Variable,
      SimpleNetwork.init_layers inputs [w1, b1, w2, b2, w3, b3] =
        some
          (T.add
            (T.matmul
              (T.tanh (T.add
                (T.matmul
                  (T.tanh (T.add (T.matmul inputs (T.var w1)) (T.var b1)))
                  (T.var w2))
                (T.var b2)))
              (T.var w3))
            (T.var b3),
          T.add
            (T.add (T.add (T.lit 0) (T.l2_loss (T.var w1)))
              (T.l2_loss (T.var w2)))
            (T.l2_loss (T.var w3)))) :=
  ⟨rfl, fun _ _ _ _ _ _ => rfl⟩

/-- C9: the convolutional variant's layer builder applies, per conv layer,
2-D convolution with "SAME" padding at the configured stride (4, 2, 1),
bias addition, ReLU, then 2×2 max-pooling with stride 2 and "SAME"
padding; it flattens the final pooled output to vectors of length 256,
applies a ReLU fully-connected layer and a final affine output with no
activation; and its regularization penalty is the sum of the L2 norms of
the two fully-connected weights only, convolutional filters excluded. -/
theorem C9_conv_architecture (inputs : T)
    (w1 b1 w2 b2 w3 b3 w4 b4 w5 b5 : Variable) :
    ConvNetwork.init_layers inputs
        [w1, b1, w2, b2, w3, b3, w4, b4, w5, b5] =
      some
        (T.add
          (T.matmul
            (T.relu (T.add
              (T.matmul
                (T.reshape
                  (T.maxpool
                    (T.relu (T.add
                      (T.conv2d
                        (T.maxpool
                          (T.relu (T.add
                            (T.conv2d
                              (T.maxpool
                                (T.relu (T.add
                                  (T.conv2d inputs (T.var w1) [1, 4, 4, 1]
                                    "SAME")
                                  (T.var b1)))
                                [1, 2, 2, 1] [1, 2, 2, 1] "SAME")
                              (T.var w2) [1, 2, 2, 1] "SAME")
                            (T.var b2)))
                          [1, 2, 2, 1] [1, 2, 2, 1] "SAME")
                        (T.var w3) [1, 1, 1, 1] "SAME")
                      (T.var b3)))
                    [1, 2, 2, 1] [1, 2, 2, 1] "SAME")
                  [-1, 256])
                (T.var w4))
              (T.var b4)))
            (T.var w5))
          (T.var b5),
        T.add (T.add (T.lit 0) (T.l2_loss (T.var w4)))
          (T.l2_loss (T.var w5))) :=
  rfl
